import Mathlib

/-!
# Verification of the trip-planning assistant's conversation engine

Shallow embedding, translated from the TypeScript sources of the
`trip-planning-assistant` repository:

* `frontend/src/services/WebSocketService.ts` — wire frames, handler
  dispatch, close/reconnect logic;
* `frontend/src/components/Chat/ChatInterface.tsx` (the context-backed
  variant) and the `TripPlanningContext` reducer — the client-side
  message history and streaming handlers;
* the `extractTripDataFromResponse` / `createSampleTripData` trip-data
  extraction helpers (both the `ChatInterface.tsx` variant and the
  variant that falls back to hardcoded sample data);
* `src/services/AgentOrchestrator.ts` with `ActivityAgent`,
  `RestaurantAgent` and `BaseAgent` — the agent registry and
  `planTrip`.

The backend streaming server (the Turn Streaming Protocol Handler of the
spec) ships no source in this corpus — only its documentation — so the
frame stream it produces per turn is modelled from the spec where a
claim needs it; such definitions carry a `Modelled from the spec:` doc
comment.

Conventions: JavaScript strings are `String`, numbers used as
timestamps/ids are `Nat` (`Date.now()`), fractional ratings are `ℚ`,
`undefined`/`null` are `Option`, and JS objects are structures.  The
builtin `JSON.parse` (a host primitive, not repository code) is a
function parameter of the extractors.
-/

namespace TripPlanning

/-- Message role, from the `Message` interface of `TripPlanningContext`:
`role: 'user' | 'assistant'`. -/
inductive Role where
  | user
  | assistant
deriving DecidableEq, Repr

/-- `Message` from `TripPlanningContext.tsx`:
`{ id: string; role: 'user' | 'assistant'; content: string; timestamp: Date }`.
The `Date` timestamp is modelled as the `Nat` returned by `Date.now()`. -/
structure Message where
  id : String
  role : Role
  content : String
  timestamp : Nat
deriving DecidableEq, Repr

/-- `WebSocketMessage` from `WebSocketService.ts`:
`{ message?: string; turn_complete?: boolean; interrupted?: boolean }`.
An absent boolean field behaves exactly like `false` in the dispatch
conditions, so the two boolean fields are plain `Bool`. -/
structure Frame where
  message : Option String
  turn_complete : Bool
  interrupted : Bool
deriving DecidableEq, Repr

/-- The handler callbacks of `WebSocketHandlers` that
`WebSocketService.handleMessage` can invoke for a parsed frame. -/
inductive HandlerCall where
  | onMessage (text : String)
  | onTurnComplete
  | onInterrupted
deriving DecidableEq, Repr

/-- `WebSocketService.handleMessage` (lines 87–106), for a frame that
parsed successfully: the sequence of handler invocations it performs.
`if (data.message)` is JS truthiness, so an empty string does not fire
`onMessage`; `onInterrupted` is modelled as provided (both
`ChatInterface` variants install it).  The `catch` branch (malformed
JSON) is outside the domain of parsed frames. -/
def handleMessageCalls (f : Frame) : List HandlerCall :=
  (match f.message with
   | some s => if s = "" then [] else [HandlerCall.onMessage s]
   | none => []) ++
  (if f.turn_complete then [HandlerCall.onTurnComplete] else []) ++
  (if f.interrupted then [HandlerCall.onInterrupted] else [])

/-- A frame is terminal when it carries `turn_complete=true` or
`interrupted=true`. -/
def Frame.isTerminal (f : Frame) : Bool :=
  f.turn_complete || f.interrupted

/-! ## Close / reconnect logic of `WebSocketService` -/

/-- `maxReconnectAttempts = 5` (line 26). -/
def maxReconnectAttempts : Nat := 5

/-- The mutable connection-retry state of `WebSocketService`:
`reconnectAttempts` (line 25, initialised to 0). -/
structure WSState where
  reconnectAttempts : Nat
deriving DecidableEq, Repr

/-- Observable side effects of the close/reconnect path. -/
inductive WSAction where
  | scheduleReconnect (delayMs : Nat)
  | callError
  | callClose
deriving DecidableEq, Repr

/-- `attemptReconnect` (lines 126–141): below the maximum it increments
the counter and schedules `connect` after
`min(1000 * 2 ** reconnectAttempts, 30000)` ms (with the incremented
counter); at the maximum it invokes the error handler. -/
def attemptReconnect (st : WSState) : WSState × List WSAction :=
  if st.reconnectAttempts < maxReconnectAttempts then
    let n := st.reconnectAttempts + 1
    (⟨n⟩, [WSAction.scheduleReconnect (min (1000 * 2 ^ n) 30000)])
  else
    (st, [WSAction.callError])

/-- `handleClose` (lines 108–119): reconnect only when the close code is
not 1000, then always invoke the `onClose` handler. -/
def handleClose (code : Nat) (st : WSState) : WSState × List WSAction :=
  let (st', acts) := if code ≠ 1000 then attemptReconnect st else (st, [])
  (st', acts ++ [WSAction.callClose])

/-- `handleOpen` (lines 79–85) resets the retry counter. -/
def handleOpen (_st : WSState) : WSState :=
  ⟨0⟩

/-- Whether an action schedules a reconnection. -/
def WSAction.isSchedule : WSAction → Bool
  | .scheduleReconnect _ => true
  | _ => false

/-- Run a sequence of close events (no intervening successful open) and
count how many reconnections get scheduled. -/
def runCloses : WSState → List Nat → WSState × Nat
  | st, [] => (st, 0)
  | st, code :: rest =>
    let r := handleClose code st
    let r' := runCloses r.1 rest
    (r'.1, r'.2 + r.2.countP WSAction.isSchedule)

/-! ## Trip data and the `TripPlanningContext` reducer

The context-backed `ChatInterface.tsx` uses the slim `TripData`
interface of its `TripPlanningContext`
(`{ destination; departure; startDate; endDate; budget }`). -/

namespace FE

/-- `TripData` of the context used by the context-backed
`ChatInterface.tsx` (all five fields are strings). -/
structure TripData where
  destination : String
  departure : String
  startDate : String
  endDate : String
  budget : String
deriving DecidableEq, Repr

end FE

/-- `TripPlanningState` of `TripPlanningContext`:
`{ tripData: TripData | null; isLoading: boolean; error: string | null; messages: Message[] }`. -/
structure TPState where
  tripData : Option FE.TripData
  isLoading : Bool
  error : Option String
  messages : List Message
deriving DecidableEq, Repr

/-- `TripPlanningAction` of `TripPlanningContext`. -/
inductive TPAction where
  | setTripData (td : FE.TripData)
  | setLoading (b : Bool)
  | setError (e : Option String)
  | addMessage (m : Message)
  | setMessages (ms : List Message)
deriving DecidableEq, Repr

/-- `tripPlanningReducer` of `TripPlanningContext`, case by case. -/
def tripPlanningReducer (s : TPState) : TPAction → TPState
  | .setTripData td => { s with tripData := some td, isLoading := false, error := none }
  | .setLoading b => { s with isLoading := b }
  | .setError e => { s with error := e, isLoading := false }
  | .addMessage m => { s with messages := s.messages ++ [m] }
  | .setMessages ms => { s with messages := ms }

/-! ## String helpers

Hand-rolled executable counterparts of the JavaScript string/regex
primitives the `ChatInterface` code uses, over `List Char`. -/

/-- Strip a literal prefix, returning the rest on success
(the building block for the regex-literal matchers below). -/
def stripLit : List Char → List Char → Option (List Char)
  | [], cs => some cs
  | _ :: _, [] => none
  | p :: ps, c :: cs => if c = p then stripLit ps cs else none

/-- `String.prototype.includes` on the underlying character lists. -/
def containsLit (pat : List Char) : List Char → Bool
  | [] => (stripLit pat []).isSome
  | c :: cs => (stripLit pat (c :: cs)).isSome || containsLit pat cs

/-- `s.includes(pat)` for strings. -/
def strIncludes (s pat : String) : Bool :=
  containsLit pat.data s.data

/-- Drop leading JS `\s` characters (whitespace). -/
def dropSpaces (cs : List Char) : List Char :=
  cs.dropWhile Char.isWhitespace

/-- `String.prototype.trim`: strip whitespace from both ends.
(Defined over the character list so the kernel can evaluate it.) -/
def jsTrim (s : String) : String :=
  String.mk (((s.data.dropWhile Char.isWhitespace).reverse.dropWhile
    Char.isWhitespace).reverse)

/-! ## The destination regex

Both extractors probe the last assistant message with
`/(?:เที่ยว|ไป|ท่องเที่ยว)\s*(?:ที่|ยัง)?\s*([^,\.\n]+)/i`: a travel
keyword, the greedy `\s*`, an optional particle, another greedy `\s*`,
then a greedy nonempty run of characters other than `,`, `.` and
newline as the captured destination.  (The `i` flag is vacuous on Thai
text.)  ECMAScript semantics: leftmost match, alternatives in source
order, and full backtracking — in particular a greedy `\s*` gives
characters back to the capture class (which admits whitespace) when
the capture would otherwise be empty, so e.g. `"ไป "` matches with the
capture `" "`.  The matchers below enumerate the quantifier choices in
exactly the engine's preference order: most whitespace consumed first,
the optional particle present before absent. -/

/-- A character the capture class `[^,\.\n]` accepts. -/
def destChar (c : Char) : Bool :=
  ¬ (c = ',' ∨ c = '.' ∨ c = '\n')

/-- Greedy `([^,\.\n]+)`: the maximal nonempty run. -/
def destCapture (cs : List Char) : Option (List Char) :=
  let cap := cs.takeWhile destChar
  if cap.isEmpty then none else some cap

/-- Backtracking over a greedy quantifier: try `f n`, `f (n-1)`, …,
`f 0`, returning the first success (the engine's preference order for
a greedy `\s*` that consumed at most `n` characters). -/
def firstSome {α : Type} (f : Nat → Option α) : Nat → Option α
  | 0 => f 0
  | n + 1 => f (n + 1) <|> firstSome f n

/-- `\s*([^,\.\n]+)`: consume as much whitespace as possible, giving
characters back to the capture (whitespace other than newline is in
the capture class) until the capture is nonempty. -/
def spacesThenCapture (s : List Char) : Option (List Char) :=
  firstSome (fun j => destCapture (s.drop j)) (s.takeWhile Char.isWhitespace).length

/-- The part of the destination pattern after the keyword:
`\s*(?:ที่|ยัง)?\s*([^,\.\n]+)` with full backtracking — the first
`\s*` from the longest whitespace run down, then the particle present
(`ที่` before `ยัง`) before absent, then `spacesThenCapture`. -/
def destAfterKeyword (rest : List Char) : Option (List Char) :=
  firstSome (fun i =>
    let r1 := rest.drop i
    ((stripLit "ที่".data r1).bind spacesThenCapture) <|>
    ((stripLit "ยัง".data r1).bind spacesThenCapture) <|>
    spacesThenCapture r1)
    (rest.takeWhile Char.isWhitespace).length

/-- Leftmost scan for the destination pattern, each keyword alternative
tried (in source order) with its own tail at every position. -/
def destScan : List Char → Option (List Char)
  | [] => none
  | c :: cs =>
    match ((stripLit "เที่ยว".data (c :: cs)).bind destAfterKeyword <|>
           (stripLit "ไป".data (c :: cs)).bind destAfterKeyword <|>
           (stripLit "ท่องเที่ยว".data (c :: cs)).bind destAfterKeyword) with
    | some cap => some cap
    | none => destScan cs

/-- `lastMessage.match(/(?:เที่ยว|ไป|ท่องเที่ยว)\s*(?:ที่|ยัง)?\s*([^,\.\n]+)/i)`,
returning the first capture group. -/
def destinationMatch (s : String) : Option String :=
  (destScan s.data).map fun cap => String.mk cap

/-! ## The ```` ```json ```` block regex

`/```json\s*({[\s\S]*?})\s*```/`: the capture is the shortest
brace-delimited block after a ```` ```json ```` opener that is followed
(after optional whitespace) by a closing ```` ``` ````. -/

/-- Does the list start with three backticks? -/
def startsTicks (cs : List Char) : Bool :=
  (stripLit "```".data cs).isSome

/-- Lazy `[\s\S]*?}` with the `\s*```` ``` ```` lookahead folded in: the
shortest prefix ending in `\x7d` whose remainder, after whitespace,
starts with ```` ``` ````.  Input: the characters after the opening
`\x7b`; output: that prefix (including its closing brace). -/
def jsonBodyAux : List Char → Option (List Char)
  | [] => none
  | c :: cs =>
    if c = '\x7d' then
      if startsTicks (dropSpaces cs) then some [c]
      else (jsonBodyAux cs).map fun p => c :: p
    else (jsonBodyAux cs).map fun p => c :: p

/-- After ```` ```json ```` and `\s*`: the capture `({[\s\S]*?})`. -/
def jsonBody (cs : List Char) : Option (List Char) :=
  match cs with
  | c :: r => if c = '\x7b' then (jsonBodyAux r).map fun p => c :: p else none
  | [] => none

/-- Leftmost scan for a ```` ```json ```` block; returns the captured
`\x7b…\x7d` text. -/
def jsonScan : List Char → Option (List Char)
  | [] => none
  | c :: cs =>
    match (stripLit "```json".data (c :: cs)).bind fun r => jsonBody (dropSpaces r) with
    | some cap => some cap
    | none => jsonScan cs

/-- `message.content.match(jsonRegex)`, first capture group. -/
def jsonBlockMatch (s : String) : Option String :=
  (jsonScan s.data).map fun cap => String.mk cap

/-! ## The date-range and budget regexes of the sample-data extractor

`/(\d{1,2}[-\/]\d{1,2}[-\/]\d{4})\s*(?:ถึง|to|-)\s*(\d{1,2}[-\/]\d{1,2}[-\/]\d{4})/i`
and `/งบประมาณ\s*(?:ประมาณ)?\s*([^,\.\n]+)(?:บาท|฿)/i`. -/

/-- Split off exactly `n` digits. -/
def splitDigits : Nat → List Char → Option (List Char × List Char)
  | 0, cs => some ([], cs)
  | _ + 1, [] => none
  | n + 1, c :: cs =>
    if c.isDigit then (splitDigits n cs).map fun p => (c :: p.1, p.2)
    else none

/-- A date separator `[-\/]`. -/
def dateSep (c : Char) : Bool :=
  c = '-' ∨ c = '/'

/-- One date token `\d{1,2}[-\/]\d{1,2}[-\/]\d{4}`: the two bounded
quantifiers try two digits before one (greedy).  Returns the matched
text and the rest. -/
def matchDateToken (cs : List Char) : Option (List Char × List Char) :=
  let attempt : Nat → Nat → Option (List Char × List Char) := fun k1 k2 =>
    match splitDigits k1 cs with
    | some (d1, r1) =>
      match r1 with
      | s1 :: r2 =>
        if dateSep s1 then
          match splitDigits k2 r2 with
          | some (d2, r3) =>
            match r3 with
            | s2 :: r4 =>
              if dateSep s2 then
                match splitDigits 4 r4 with
                | some (d4, r5) => some (d1 ++ s1 :: d2 ++ s2 :: d4, r5)
                | none => none
              else none
            | [] => none
          | none => none
        else none
      | [] => none
    | none => none
  attempt 2 2 <|> attempt 2 1 <|> attempt 1 2 <|> attempt 1 1

/-- Case-insensitive literal prefix (for the `i` flag on `to`). -/
def stripLitCI : List Char → List Char → Option (List Char)
  | [], cs => some cs
  | _ :: _, [] => none
  | p :: ps, c :: cs => if c.toLower = p.toLower then stripLitCI ps cs else none

/-- The range connective `(?:ถึง|to|-)`. -/
def dateConnective (cs : List Char) : Option (List Char) :=
  stripLit "ถึง".data cs <|> stripLitCI "to".data cs <|> stripLit "-".data cs

/-- Match the full date-range pattern at the current position.  The two
`\s*` here never need to backtrack: the connective starts with `ถ`,
`t`/`T` or `-` and a date token with a digit, none of which is
whitespace, so the greedy run is the only viable choice. -/
def dateRangeHere (cs : List Char) : Option (List Char × List Char) :=
  (matchDateToken cs).bind fun p =>
    (dateConnective (dropSpaces p.2)).bind fun r =>
      (matchDateToken (dropSpaces r)).map fun q => (p.1, q.1)

/-- Leftmost scan for the date-range pattern; captures both dates. -/
def dateRangeScan : List Char → Option (List Char × List Char)
  | [] => none
  | c :: cs =>
    match dateRangeHere (c :: cs) with
    | some p => some p
    | none => dateRangeScan cs

/-- `lastMessage.match(dateRangeRegex)`: captures 1 and 2. -/
def dateRangeMatch (s : String) : Option (String × String) :=
  (dateRangeScan s.data).map fun p => (String.mk p.1, String.mk p.2)

/-- Does the list start with a currency unit `(?:บาท|฿)`? -/
def startsWithUnit (cs : List Char) : Bool :=
  (stripLit "บาท".data cs).isSome || (stripLit "฿".data cs).isSome

/-- Greedy `([^,\.\n]+)` followed by `(?:บาท|฿)`: the longest nonempty
run of capture-class characters whose remainder starts with a unit. -/
def budgetCapAux : List Char → Option (List Char)
  | [] => none
  | c :: cs =>
    if destChar c then
      match budgetCapAux cs with
      | some cap => some (c :: cap)
      | none => if startsWithUnit cs then some [c] else none
    else none

/-- `\s*([^,\.\n]+)(?:บาท|฿)`: the greedy `\s*` backtracks into the
capture (whitespace other than newline is in the capture class), so
e.g. `" บาท"` matches with capture `" "`. -/
def spacesThenBudgetCap (s : List Char) : Option (List Char) :=
  firstSome (fun j => budgetCapAux (s.drop j)) (s.takeWhile Char.isWhitespace).length

/-- After `งบประมาณ`: `\s*(?:ประมาณ)?\s*([^,\.\n]+)(?:บาท|฿)` with full
backtracking — the first `\s*` from the longest whitespace run down,
the optional `ประมาณ` present before absent, then
`spacesThenBudgetCap`. -/
def budgetAfterKeyword (rest : List Char) : Option (List Char) :=
  firstSome (fun i =>
    let r1 := rest.drop i
    ((stripLit "ประมาณ".data r1).bind spacesThenBudgetCap) <|>
    spacesThenBudgetCap r1)
    (rest.takeWhile Char.isWhitespace).length

/-- Leftmost scan for the budget pattern. -/
def budgetScan : List Char → Option (List Char)
  | [] => none
  | c :: cs =>
    match (stripLit "งบประมาณ".data (c :: cs)).bind budgetAfterKeyword with
    | some cap => some cap
    | none => budgetScan cs

/-- `lastMessage.match(budgetRegex)`, first capture group. -/
def budgetMatch (s : String) : Option String :=
  (budgetScan s.data).map fun cap => String.mk cap

/-! ## Trip-data extraction, `ChatInterface.tsx` variant -/

/-- The optional `tripInput` argument of `createSampleTripData`
(`tripInput?: any` with the five fields read off it). -/
structure TripInputOpt where
  destination : Option String
  departure : Option String
  startDate : Option String
  endDate : Option String
  budgetRange : Option String
deriving DecidableEq, Repr

/-- JS `x?.field || "default"`: absent or empty-string (falsy) values
fall back to the default. -/
def orDefault (o : Option String) (d : String) : String :=
  match o with
  | some s => if s = "" then d else s
  | none => d

/-- `createSampleTripData` (`ChatInterface.tsx`, context-backed
variant): fixed fallbacks `"Bangkok"`, `"No departure specified"`,
`"2023-05-10"`, `"2023-05-15"`, `"฿30,000"`. -/
def createSampleTripData (tripInput : Option TripInputOpt) : FE.TripData :=
  { destination := orDefault (tripInput.bind TripInputOpt.destination) "Bangkok"
    departure := orDefault (tripInput.bind TripInputOpt.departure) "No departure specified"
    startDate := orDefault (tripInput.bind TripInputOpt.startDate) "2023-05-10"
    endDate := orDefault (tripInput.bind TripInputOpt.endDate) "2023-05-15"
    budget := orDefault (tripInput.bind TripInputOpt.budgetRange) "฿30,000" }

/-- The `for (let i = assistantMessages.length - 1; i >= 0; i--)` loop:
walk the assistant messages from last to first, and return the first
successfully parsed ```` ```json ```` block of the expected structure.
`parseJson` stands for the `JSON.parse` host builtin combined with the
structure check; a parse error just moves the loop on.  The argument is
the already-reversed assistant-message list. -/
def findJsonTripData {α : Type} (parseJson : String → Option α) : List Message → Option α
  | [] => none
  | m :: ms =>
    match (jsonBlockMatch m.content).bind fun j => parseJson (jsTrim j) with
    | some td => some td
    | none => findJsonTripData parseJson ms

/-- `messages.filter(msg => msg.role === 'assistant')`. -/
def assistantMessages (msgs : List Message) : List Message :=
  msgs.filter fun m => m.role = Role.assistant

/-- The content of `assistantMessages[assistantMessages.length - 1]`
(callers establish nonemptiness). -/
def lastAssistantContent (msgs : List Message) : String :=
  ((assistantMessages msgs).getLast?.map Message.content).getD ""

/-- `extractTripDataFromResponse` (`ChatInterface.tsx`, lines 485–537 of
the context-backed variant): `null` without assistant messages; else
the last parseable ```` ```json ```` block; else, when the destination
pattern matches the last assistant message, sample data seeded with the
trimmed captured destination; else `null`.  The surrounding
`try`/`catch` returns `null` on an exception; every operation here is
total, so that branch is unreachable in the model. -/
def extractTripDataFromResponseFE (parseJson : String → Option FE.TripData)
    (msgs : List Message) : Option FE.TripData :=
  match assistantMessages msgs with
  | [] => none
  | _ :: _ =>
    match findJsonTripData parseJson (assistantMessages msgs).reverse with
    | some td => some td
    | none =>
      match destinationMatch (lastAssistantContent msgs) with
      | some d =>
        some (createSampleTripData (some ⟨some (jsTrim d), none, none, none, none⟩))
      | none => none

/-! ## Trip-data extraction, sample-data fallback variant

The second `extractTripDataFromResponse` in the corpus (the
`ChatInterface` copy kept with the Canvas sources) targets the richer
`TripData` interface with `travelers` and the five result lists, and —
"a temporary measure to confirm the Canvas display works", per its own
comment — falls back to a hardcoded sample `TripData` instead of
`null`. -/

namespace P9

/-- `Activity` of the richer `TripPlanningContext` interface. -/
structure Activity where
  id : String
  name : String
  description : String
  rating : ℚ
  openingHours : String
  imageUrl : String
  category : String
  location : String
  price : String
  highlights : List String
  bestTimeToVisit : String
deriving DecidableEq, Repr

/-- `Restaurant` of the richer interface. -/
structure Restaurant where
  id : String
  name : String
  cuisine : String
  priceRange : String
  rating : ℚ
  reviewHighlight : String
  imageUrl : String
  location : String
  hours : String
  specialties : List String
  reservationRequired : Bool
deriving DecidableEq, Repr

/-- The `departure`/`arrival` legs of `Flight`. -/
structure FlightLeg where
  airport : String
  time : String
  date : String
  terminal : String
deriving DecidableEq, Repr

/-- `Flight` of the richer interface (`class` is a Lean keyword, so the
source's `class` field is `fareClass` here). -/
structure Flight where
  id : String
  airline : String
  flightNumber : String
  departure : FlightLeg
  arrival : FlightLeg
  duration : String
  price : Nat
  fareClass : String
  bookingUrl : String
  stops : Nat
  layover : String
  amenities : List String
  cancellationPolicy : String
deriving DecidableEq, Repr

/-- `Video` of the richer interface. -/
structure Video where
  id : String
  title : String
  description : String
  thumbnail : String
  embedUrl : String
  duration : String
  viewCount : String
  likes : String
  channel : String
  publishDate : String
deriving DecidableEq, Repr

/-- `Accommodation` of the richer interface. -/
structure Accommodation where
  id : String
  name : String
  type : String
  rating : ℚ
  reviewCount : Nat
  price : Nat
  priceUnit : String
  amenities : List String
  imageUrl : String
  platform : String
  bookingUrl : String
  location : String
  description : String
  distance : String
deriving DecidableEq, Repr

/-- The richer `TripData`. -/
structure TripData where
  destination : String
  departure : String
  startDate : String
  endDate : String
  budget : String
  travelers : String
  activities : List Activity
  restaurants : List Restaurant
  flights : List Flight
  videos : List Video
  accommodations : List Accommodation
deriving DecidableEq, Repr

end P9

/-- The hardcoded `sampleData` of the sample-data extractor
("Create hardcoded sample data for testing"), as a function of the
three optional regex captures that seed its scalar fields; every other
field is the fixed literal from the source. -/
def sampleTripDataP9 (dm : Option String) (dtm : Option (String × String))
    (bm : Option String) : P9.TripData :=
  { destination := (dm.map jsTrim).getD "Bangkok"
    departure := "No departure specified"
    startDate := (dtm.map Prod.fst).getD "2023-05-10"
    endDate := (dtm.map Prod.snd).getD "2023-05-15"
    budget := bm.getD "฿30,000"
    travelers := "2"
    activities := [
      { id := "1"
        name := "Grand Palace"
        description := "The Grand Palace is a complex of buildings at the heart of Bangkok, Thailand. The palace has been the official residence of the Kings of Siam since 1782."
        rating := 4.8
        openingHours := "8:30 AM - 3:30 PM"
        imageUrl := "https://images.unsplash.com/photo-1563492065599-3520f775eeed?w=800&auto=format&fit=crop&q=60"
        category := "Cultural"
        location := "Na Phra Lan Road, Bangkok"
        price := "฿500 per person"
        highlights := ["Emerald Buddha", "Throne Halls", "Royal decorations"]
        bestTimeToVisit := "Early morning" }]
    restaurants := [
      { id := "1"
        name := "Thipsamai Pad Thai"
        cuisine := "Thai"
        priceRange := "฿฿"
        rating := 4.7
        reviewHighlight := "The best Pad Thai in Bangkok, a must-visit for authentic Thai flavors!"
        imageUrl := "https://images.unsplash.com/photo-1559314809-0d155014e29e?w=800&auto=format&fit=crop&q=60"
        location := "Maha Chai Road, Bangkok"
        hours := "5:00 PM - 2:00 AM"
        specialties := ["Pad Thai", "Fresh spring rolls", "Orange juice"]
        reservationRequired := false },
      { id := "2"
        name := "Raan Jay Fai"
        cuisine := "Thai Street Food"
        priceRange := "฿฿฿"
        rating := 4.9
        reviewHighlight := "Michelin-starred street food that lives up to the hype. The crab omelette is legendary!"
        imageUrl := "https://images.unsplash.com/photo-1543352634-a1c51d9f1fa7?w=800&auto=format&fit=crop&q=60"
        location := "Maha Chai Road, Bangkok"
        hours := "2:00 PM - 12:00 AM"
        specialties := ["Crab omelette", "Drunken noodles", "Tom Yum"]
        reservationRequired := true }]
    flights := [
      { id := "1"
        airline := "Thai Airways"
        flightNumber := "TG102"
        departure := { airport := "SFO", time := "23:55", date := "2023-05-10", terminal := "I" }
        arrival := { airport := "BKK", time := "06:50", date := "2023-05-12", terminal := "M" }
        duration := "15h 55m"
        price := 29750
        fareClass := "Economy"
        bookingUrl := "https://www.thaiairways.com"
        stops := 1
        layover := "2h 30m in Tokyo"
        amenities := ["In-flight meals", "Wi-Fi", "Entertainment"]
        cancellationPolicy := "Free cancellation up to 24 hours before departure" }]
    videos := [
      { id := "1"
        title := "Bangkok Travel Guide - Best Things to Do"
        description := "Complete guide to Bangkok covering temples, markets, food, and nightlife."
        thumbnail := "https://images.unsplash.com/photo-1583417319070-4a69db38a482?w=800&auto=format&fit=crop&q=60"
        embedUrl := "https://www.youtube.com/embed/tO01J-M3g0U"
        duration := "12:45"
        viewCount := "250K"
        likes := "15K"
        channel := "Travel Guides"
        publishDate := "2023-01-15" }]
    accommodations := [
      { id := "1"
        name := "The Siam Hotel"
        type := "Luxury Hotel"
        rating := 4.9
        reviewCount := 342
        price := 8750
        priceUnit := "night"
        amenities := ["WiFi", "Pool", "Private Bathroom", "Breakfast", "Spa", "Fitness Center"]
        imageUrl := "https://images.unsplash.com/photo-1584132967334-10e028bd69f7?w=800&auto=format&fit=crop&q=60"
        platform := "Agoda"
        bookingUrl := "https://www.agoda.com"
        location := "Riverside, Bangkok"
        description := "An urban luxury resort with exquisite design and personalized service."
        distance := "5 km" }] }

/-- The sample-data variant of `extractTripDataFromResponse`
(lines 881–1044 of the Canvas-side `ChatInterface` copy): identical to
the `ChatInterface.tsx` variant up to the JSON search, but once assistant
messages exist it always returns trip data — the scalar fields are
seeded from the destination / date-range / budget regexes on the last
assistant message, with the hardcoded sample values for everything that
did not match. -/
def extractTripDataFromResponseP9 (parseJson : String → Option P9.TripData)
    (msgs : List Message) : Option P9.TripData :=
  match assistantMessages msgs with
  | [] => none
  | _ :: _ =>
    match findJsonTripData parseJson (assistantMessages msgs).reverse with
    | some td => some td
    | none =>
      let lastMessage := lastAssistantContent msgs
      some (sampleTripDataP9 (destinationMatch lastMessage)
        (dateRangeMatch lastMessage) (budgetMatch lastMessage))

/-! ## The chat client state machine (`ChatInterface.tsx`, context-backed)

Component state (`useState`) together with the reducer-owned context
state, with WebSocket handler callbacks and `handleSubmit` as explicit
state transformers.  `Date.now()` is an explicit `now : Nat` argument;
the `setTimeout` fallbacks (sample data after 10 s) are side timers
that never touch the message history and are not modelled. -/

/-- The component-and-context state the handlers read and write. -/
structure ClientState where
  tp : TPState
  currentMessageId : Option String
  isConnected : Bool
  isConnecting : Bool
  connectionError : Option String
  inputValue : String
  isPlanningTrip : Bool
  isProcessingMessage : Bool
deriving DecidableEq, Repr

/-- `handlers.onMessage` (lines 634–672): with no current streaming
message, a fresh assistant message (`id = Date.now().toString()`) is
appended via `ADD_MESSAGE` and becomes current; otherwise the fragment
text is appended to the current message's content via `SET_MESSAGES`
over a `map`. -/
def onMessageHandler (now : Nat) (st : ClientState) (text : String) : ClientState :=
  let st := { st with isProcessingMessage := false }
  match st.currentMessageId with
  | none =>
    let newMessage : Message := ⟨toString now, Role.assistant, text, now⟩
    { st with currentMessageId := some (toString now)
              tp := tripPlanningReducer st.tp (.addMessage newMessage) }
  | some cid =>
    let updatedMessages := st.tp.messages.map fun m =>
      if m.id = cid then { m with content := m.content ++ text } else m
    { st with tp := tripPlanningReducer st.tp (.setMessages updatedMessages) }

/-- `handlers.onTurnComplete` (lines 673–690): reset the streaming
message id, clear the processing flag, and, when a trip is being
planned and extraction succeeds, store the trip data, stop loading and
leave planning mode (`onPlanningComplete` is an external callback). -/
def onTurnCompleteHandler (parseJson : String → Option FE.TripData)
    (st : ClientState) : ClientState :=
  let st := { st with currentMessageId := none, isProcessingMessage := false }
  if st.isPlanningTrip then
    match extractTripDataFromResponseFE parseJson st.tp.messages with
    | some td =>
      { st with tp := tripPlanningReducer
                  (tripPlanningReducer st.tp (.setTripData td)) (.setLoading false)
                isPlanningTrip := false }
    | none => st
  else st

/-- `handlers.onInterrupted` (lines 691–693): only
`setCurrentMessageId(null)`. -/
def onInterruptedHandler (st : ClientState) : ClientState :=
  { st with currentMessageId := none }

/-- The trip-planning-query test of `handleSubmit` (lines 735–737). -/
def isTripPlanningQuery (input : String) : Bool :=
  strIncludes input.toLower "วางแผนการเดินทาง" ||
  strIncludes input.toLower "ไปเที่ยว" ||
  strIncludes input.toLower "plan a trip"

/-- `handleSubmit` (lines 721–811), successful-send path: empty
(trimmed) input is ignored; when disconnected only an error banner is
set; otherwise the planning flags are raised for trip-planning queries,
the user message (`id = Date.now().toString()`) is appended via
`ADD_MESSAGE`, the processing flag is set, the text goes out over the
socket and the input box is cleared.  (`sendMessage` reports transport
failure through callbacks and never throws, so the `catch` branch is
unreachable; the 10 s sample-data timer is not modelled.) -/
def handleSubmit (now : Nat) (st : ClientState) : ClientState :=
  if jsTrim st.inputValue = "" then st
  else if st.isConnected = false then
    { st with connectionError := some "Connecting to the assistant. Please try again in a moment." }
  else
    let st1 :=
      if isTripPlanningQuery st.inputValue then
        { st with isPlanningTrip := true
                  tp := tripPlanningReducer st.tp (.setLoading true) }
      else st
    let userMessage : Message := ⟨toString now, Role.user, st.inputValue, now⟩
    { st1 with tp := tripPlanningReducer st1.tp (.addMessage userMessage)
               isProcessingMessage := true
               inputValue := "" }

/-- One inbound frame, dispatched through
`WebSocketService.handleMessage` to the three handlers above, in source
order (message, then `turn_complete`, then `interrupted`). -/
def clientStep (parseJson : String → Option FE.TripData)
    (st : ClientState) (p : Nat × Frame) : ClientState :=
  let st1 :=
    match p.2.message with
    | some s => if s = "" then st else onMessageHandler p.1 st s
    | none => st
  let st2 := if p.2.turn_complete then onTurnCompleteHandler parseJson st1 else st1
  if p.2.interrupted then onInterruptedHandler st2 else st2

/-- One whole client-side turn: submit the input, then process the
turn's inbound frames (each tagged with its `Date.now()`). -/
def runTurn (parseJson : String → Option FE.TripData) (now : Nat)
    (st : ClientState) (frames : List (Nat × Frame)) : ClientState :=
  frames.foldl (clientStep parseJson) (handleSubmit now st)

/-! ## `AgentOrchestrator`, `ActivityAgent`, `RestaurantAgent`

From `src/services/AgentOrchestrator.ts` and
`src/services/agents/{BaseAgent,ActivityAgent,RestaurantAgent}.ts`. -/

namespace Agents

/-- `Activity` of `ActivityAgent.ts`. -/
structure Activity where
  id : String
  name : String
  description : String
  rating : ℚ
  openingHours : String
  imageUrl : String
  category : String
deriving DecidableEq, Repr

/-- `Restaurant` of `RestaurantAgent.ts`. -/
structure Restaurant where
  id : String
  name : String
  cuisine : String
  priceRange : String
  rating : ℚ
  reviewHighlight : String
  imageUrl : String
deriving DecidableEq, Repr

end Agents

/-- `AgentResponse<T>` of `BaseAgent.ts`:
`{ success: boolean; data?: T; error?: string }`. -/
structure AgentResponse (α : Type) where
  success : Bool
  data : Option α
  error : Option String
deriving DecidableEq, Repr

/-- The mock activities `ActivityAgent.execute` resolves with. -/
def mockActivities : List Agents.Activity := [
  { id := "1"
    name := "วัดพระแก้ว"
    description := "วัดที่มีชื่อเสียงที่สุดในกรุงเทพฯ เป็นที่ประดิษฐานพระแก้วมรกต"
    rating := 4.8
    openingHours := "8:30 AM - 3:30 PM"
    imageUrl := "https://images.unsplash.com/photo-1563492065599-3520f775eeed?w=800&auto=format&fit=crop&q=60"
    category := "Cultural" },
  { id := "2"
    name := "ตลาดนัดจตุจักร"
    description := "ตลาดนัดที่ใหญ่ที่สุดในประเทศไทย มีสินค้ามากกว่า 15,000 ร้านค้า"
    rating := 4.5
    openingHours := "Sat-Sun: 9:00 AM - 6:00 PM"
    imageUrl := "https://images.unsplash.com/photo-1577719996642-edf11c65fe76?w=800&auto=format&fit=crop&q=60"
    category := "Shopping" },
  { id := "3"
    name := "ล่องเรือแม่น้ำเจ้าพระยา"
    description := "ชมทิวทัศน์สองฝั่งแม่น้ำเจ้าพระยายามค่ำคืน พร้อมอาหารไทยชั้นเลิศ"
    rating := 4.7
    openingHours := "6:00 PM - 10:00 PM"
    imageUrl := "https://images.unsplash.com/photo-1587974928442-77dc3e0dba72?w=800&auto=format&fit=crop&q=60"
    category := "Experience" }]

/-- The mock restaurants `RestaurantAgent.execute` resolves with. -/
def mockRestaurants : List Agents.Restaurant := [
  { id := "1"
    name := "ร้านทิพย์สมัย ผัดไทยประตูผี"
    cuisine := "Thai"
    priceRange := "฿฿"
    rating := 4.7
    reviewHighlight := "ผัดไทยที่ดีที่สุดในกรุงเทพฯ รสชาติต้นตำรับ"
    imageUrl := "https://images.unsplash.com/photo-1559314809-0d155014e29e?w=800&auto=format&fit=crop&q=60" },
  { id := "2"
    name := "บ้านอาหารเรือนไทย"
    cuisine := "Thai Fine Dining"
    priceRange := "฿฿฿"
    rating := 4.6
    reviewHighlight := "บรรยากาศสุดคลาสสิก อาหารไทยรสเลิศ"
    imageUrl := "https://images.unsplash.com/photo-1543352634-a1c51d9f1fa7?w=800&auto=format&fit=crop&q=60" },
  { id := "3"
    name := "Jay Fai"
    cuisine := "Thai Street Food"
    priceRange := "฿฿฿"
    rating := 4.9
    reviewHighlight := "ร้านริมทางระดับมิชลินสตาร์ ปูผัดผงกะหรี่เด็ด"
    imageUrl := "https://images.unsplash.com/photo-1601050690597-df0568f70950?w=800&auto=format&fit=crop&q=60" }]

/-- The two agent classes registered by `registerAgents`. -/
inductive AgentKind where
  | activityAgent
  | restaurantAgent
deriving DecidableEq, Repr

/-- `TripInput` of `AgentOrchestrator.ts`. -/
structure TripInput where
  departure : String
  destination : String
  startDate : String
  endDate : String
  budgetRange : String
deriving DecidableEq, Repr

/-- The `{ destination, budget }` parameter object `planTrip` passes to
`execute`. -/
structure ExecParams where
  destination : String
  budget : String
deriving DecidableEq, Repr

/-- The orchestrator's state: its `agents: Map<string, BaseAgent>`, as
the insertion-ordered key/agent association list. -/
structure AgentOrchestrator where
  agents : List (String × AgentKind)
deriving DecidableEq, Repr

/-- `registerAgents` (lines 21–25): set `activity` and `restaurant`. -/
def registerAgents (o : AgentOrchestrator) : AgentOrchestrator :=
  { o with agents := o.agents ++ [("activity", AgentKind.activityAgent),
                                  ("restaurant", AgentKind.restaurantAgent)] }

/-- The constructor (lines 16–19): start from an empty map and register
the agents exactly once. -/
def mkAgentOrchestrator : AgentOrchestrator :=
  registerAgents ⟨[]⟩

/-- `this.agents.get(key)`. -/
def lookupAgent (o : AgentOrchestrator) (key : String) : Option AgentKind :=
  (o.agents.find? fun p => p.1 = key).map Prod.snd

/-- `ActivityAgent.execute` / `RestaurantAgent.execute`: both resolve
with `{ success: true, data: mock… }` for any parameters, combined into
one dispatcher over the registered agent kinds.  The activity payload
is returned on the left, the restaurant payload on the right. -/
def agentExecute (k : AgentKind) (_params : ExecParams) :
    AgentResponse (List Agents.Activity) ⊕ AgentResponse (List Agents.Restaurant) :=
  match k with
  | .activityAgent => Sum.inl { success := true, data := some mockActivities, error := none }
  | .restaurantAgent => Sum.inr { success := true, data := some mockRestaurants, error := none }

/-- What a single agent invocation inside `Promise.all` can do:
resolve (with `undefined` when the registry lookup produced no agent,
mirroring `this.agents.get(k)?.execute(…)`), or reject.  A rejection
carries `some msg` when the thrown value is an `Error` and `none`
otherwise. -/
inductive Invocation (α : Type) where
  | resolves (r : Option α)
  | rejects (err : Option String)
deriving DecidableEq, Repr

/-- The combined `data` object of a successful `planTrip`. -/
structure PlanTripData where
  activities : List Agents.Activity
  restaurants : List Agents.Restaurant
deriving DecidableEq, Repr

/-- The value `planTrip` returns: `success` with either the combined
`data` object or the caught `error` message. -/
structure PlanTripResult where
  success : Bool
  data : Option PlanTripData
  error : Option String
deriving DecidableEq, Repr

/-- `error instanceof Error ? error.message : 'Unknown error occurred'`. -/
def caughtMessage (e : Option String) : String :=
  e.getD "Unknown error occurred"

/-- The `try`/`catch` body of `planTrip` (lines 27–56) over the two
`Promise.all` invocation outcomes: both resolve → `success: true` with
`result?.data || []` for each list; any rejection → the `catch` branch,
`success: false` with the extracted message.  `Promise.all` surfaces
the first rejection; with both already-settled promises that is the
activity slot first. -/
def planTripWith (ai : Invocation (AgentResponse (List Agents.Activity)))
    (ri : Invocation (AgentResponse (List Agents.Restaurant))) : PlanTripResult :=
  match ai, ri with
  | .resolves ra, .resolves rr =>
    { success := true
      data := some { activities := (ra.bind AgentResponse.data).getD []
                     restaurants := (rr.bind AgentResponse.data).getD [] }
      error := none }
  | .rejects e, _ =>
    { success := false, data := none, error := some (caughtMessage e) }
  | .resolves _, .rejects e =>
    { success := false, data := none, error := some (caughtMessage e) }

/-- `this.agents.get(key)?.execute(params)` as an always-resolving
invocation of the registered (mock-backed) agents, projected to the
expected payload type by the side the dispatcher returned it on. -/
def invokeActivity (o : AgentOrchestrator) (ps : ExecParams) :
    Invocation (AgentResponse (List Agents.Activity)) :=
  .resolves ((lookupAgent o "activity").bind fun k =>
    match agentExecute k ps with
    | Sum.inl r => some r
    | Sum.inr _ => none)

/-- The restaurant slot of the same `Promise.all`. -/
def invokeRestaurant (o : AgentOrchestrator) (ps : ExecParams) :
    Invocation (AgentResponse (List Agents.Restaurant)) :=
  .resolves ((lookupAgent o "restaurant").bind fun k =>
    match agentExecute k ps with
    | Sum.inr r => some r
    | Sum.inl _ => none)

/-- `planTrip(userInput)`, returning the result together with the
orchestrator state afterwards — the body contains no assignment to
`this.agents`, so the state comes back untouched. -/
def planTrip (o : AgentOrchestrator) (userInput : TripInput) :
    PlanTripResult × AgentOrchestrator :=
  let ps : ExecParams := ⟨userInput.destination, userInput.budgetRange⟩
  (planTripWith (invokeActivity o ps) (invokeRestaurant o ps), o)

/-! ## The server-side turn frame stream (spec-modelled)

The backend streaming server is documented but ships no source in this
corpus, so the frames one turn puts on the wire are modelled from the
spec (§4.4, §4.5, §6, §7). -/

/-- Modelled from the spec: the outbound-frame protocol of §6 — the
backend server producing the frames is not under `src`.  "Zero or more
frames with `turn_complete=false` may precede exactly one terminal
frame per turn where `turn_complete=true` or `interrupted=true`
(mutually exclusive terminal markers for the same turn)." -/
def WellFormedTurn (fs : List Frame) : Prop :=
  ∃ pre t, fs = pre ++ [t] ∧ (∀ f ∈ pre, f.isTerminal = false) ∧
    t.isTerminal = true ∧ ¬(t.turn_complete = true ∧ t.interrupted = true)

/-- Modelled from the spec: how one turn of the (missing) backend can
end — streamed fragments then completion, agent invocation failure,
deadline exceeded, or a client-initiated interrupt mid-stream
(§4.4 step 6, §4.5, §7). -/
inductive AgentTurnOutcome where
  | success (fragments : List String) (finalText : String)
  | failure (message : String)
  | timeout (message : String)
  | interruptedMid (fragments : List String)
deriving DecidableEq, Repr

/-- Modelled from the spec: the frames the backend's Turn Streaming
Protocol Handler emits for one turn (its source is not under `src`).
§4.4: "if agent invocation fails or times out, the Orchestrator
produces a terminal error fragment and still marks the turn complete";
§7: failures are "surfaced to the client as a terminal frame with a
human-readable message and `turn_complete=true`"; §4.5: a cancellation
"emits a terminal 'interrupted' signal instead of 'turn complete' — no
further fragments for that turn are emitted afterward". -/
def turnFrames : AgentTurnOutcome → List Frame
  | .success fragments finalText =>
    fragments.map (fun s => ⟨some s, false, false⟩) ++ [⟨some finalText, true, false⟩]
  | .failure message => [⟨some message, true, false⟩]
  | .timeout message => [⟨some message, true, false⟩]
  | .interruptedMid fragments =>
    fragments.map (fun s => ⟨some s, false, false⟩) ++ [⟨none, false, true⟩]

/-! # Theorems -/

/-! ## C10: close/reconnect policy -/

/-- Over any run of close events (without an intervening successful
open), the number of scheduled reconnections is bounded by the retry
budget left in the counter. -/
theorem runCloses_schedules_le : ∀ (codes : List Nat) (st : WSState),
    (runCloses st codes).2 ≤ maxReconnectAttempts - st.reconnectAttempts := by
  intro codes
  induction codes with
  | nil => intro st; simp [runCloses]
  | cons code rest ih =>
    intro st
    by_cases hc : code = 1000
    · simpa [runCloses, handleClose, hc] using ih st
    · by_cases ha : st.reconnectAttempts < maxReconnectAttempts
      · have h := ih ⟨st.reconnectAttempts + 1⟩
        simp [runCloses, handleClose, hc, attemptReconnect, ha, WSAction.isSchedule] at h ⊢
        omega
      · have h := ih st
        simp [runCloses, handleClose, hc, attemptReconnect, ha, WSAction.isSchedule] at h ⊢
        omega

/-- C10: after an abnormal close (code ≠ 1000) the client schedules at
most 5 reconnection attempts, the n-th after a delay of
`min(1000·2^n, 30000)` ms; once the maximum is reached it invokes the
error handler instead of reconnecting, and a normal close (code 1000)
schedules no reconnection at all. -/
theorem reconnect_policy :
    (∀ st : WSState, handleClose 1000 st = (st, [WSAction.callClose])) ∧
    (∀ (st : WSState) (code : Nat), code ≠ 1000 →
      st.reconnectAttempts < maxReconnectAttempts →
      handleClose code st =
        (⟨st.reconnectAttempts + 1⟩,
         [WSAction.scheduleReconnect (min (1000 * 2 ^ (st.reconnectAttempts + 1)) 30000),
          WSAction.callClose])) ∧
    (∀ (st : WSState) (code : Nat), code ≠ 1000 →
      maxReconnectAttempts ≤ st.reconnectAttempts →
      handleClose code st = (st, [WSAction.callError, WSAction.callClose])) ∧
    (∀ codes : List Nat, (runCloses ⟨0⟩ codes).2 ≤ maxReconnectAttempts) := by
  refine ⟨?_, ?_, ?_, ?_⟩
  · intro st; simp [handleClose]
  · intro st code hc ha; simp [handleClose, hc, attemptReconnect, ha]
  · intro st code hc ha
    simp [handleClose, hc, attemptReconnect, Nat.not_lt.mpr ha]
  · intro codes; simpa using runCloses_schedules_le codes ⟨0⟩

/-- Concrete instances of each branch of the reconnect policy. -/
theorem reconnect_policy_witness :
    handleClose 1000 ⟨2⟩ = (⟨2⟩, [WSAction.callClose]) ∧
    handleClose 1006 ⟨2⟩ =
      (⟨3⟩, [WSAction.scheduleReconnect (min (1000 * 2 ^ 3) 30000), WSAction.callClose]) ∧
    handleClose 1006 ⟨5⟩ = (⟨5⟩, [WSAction.callError, WSAction.callClose]) ∧
    (runCloses ⟨0⟩ [1006, 1006, 1006, 1006, 1006, 1006, 1006]).2 ≤ maxReconnectAttempts :=
  ⟨reconnect_policy.1 ⟨2⟩,
   reconnect_policy.2.1 ⟨2⟩ 1006 (by decide) (by decide),
   reconnect_policy.2.2.1 ⟨5⟩ 1006 (by decide) (by decide),
   reconnect_policy.2.2.2 _⟩

/-! ## C9: the agent registry is static -/

/-- C9: construction registers exactly the `activity` and `restaurant`
agents, in that order, and `planTrip` returns the registry unchanged —
same keys, same agent instances. -/
theorem registry_static :
    mkAgentOrchestrator.agents =
      [("activity", AgentKind.activityAgent), ("restaurant", AgentKind.restaurantAgent)] ∧
    ∀ (o : AgentOrchestrator) (input : TripInput), (planTrip o input).2 = o := by
  exact ⟨rfl, fun o input => rfl⟩

/-! ## C6: `planTrip` error handling -/

/-- C6: `planTrip` never leaves a turn pending — any rejected agent
invocation is caught and surfaced as `success: false` with an error
message, while two resolutions yield `success: true` with the agents'
arrays (empty when an agent produced no data); with the actually
registered mock agents the result is always the successful one. -/
theorem planTrip_error_handling :
    (∀ (ai : Invocation (AgentResponse (List Agents.Activity)))
       (ri : Invocation (AgentResponse (List Agents.Restaurant))),
       ((∃ e, ai = .rejects e) ∨ (∃ e, ri = .rejects e)) →
       (planTripWith ai ri).success = false ∧ (planTripWith ai ri).data = none ∧
       ∃ m, (planTripWith ai ri).error = some m) ∧
    (∀ (ra : Option (AgentResponse (List Agents.Activity)))
       (rr : Option (AgentResponse (List Agents.Restaurant))),
       planTripWith (.resolves ra) (.resolves rr) =
         { success := true
           data := some { activities := (ra.bind AgentResponse.data).getD []
                          restaurants := (rr.bind AgentResponse.data).getD [] }
           error := none }) ∧
    (∀ input : TripInput,
       (planTrip mkAgentOrchestrator input).1 =
         { success := true
           data := some { activities := mockActivities, restaurants := mockRestaurants }
           error := none }) := by
  refine ⟨?_, fun ra rr => rfl, fun input => rfl⟩
  rintro ai ri (⟨e, rfl⟩ | ⟨e, rfl⟩)
  · exact ⟨rfl, rfl, caughtMessage e, rfl⟩
  · cases ai with
    | resolves ra => exact ⟨rfl, rfl, caughtMessage e, rfl⟩
    | rejects e' => exact ⟨rfl, rfl, caughtMessage e', rfl⟩

/-- A concrete rejected invocation flowing through `planTrip`'s catch
branch. -/
theorem planTrip_error_handling_witness :
    (planTripWith (Invocation.rejects (some "provider error"))
        (Invocation.resolves none)).success = false ∧
    (planTripWith (Invocation.rejects (some "provider error"))
        (Invocation.resolves none)).data = none ∧
    ∃ m, (planTripWith (Invocation.rejects (some "provider error"))
        (Invocation.resolves none)).error = some m :=
  planTrip_error_handling.1 _ _ (Or.inl ⟨some "provider error", rfl⟩)

/-! ## C1, C2: the turn frame stream and the terminal handlers -/

/-- `handleMessage` fires `onTurnComplete` on a frame exactly when the
frame carries `turn_complete=true`. -/
theorem onTurnComplete_mem_calls (f : Frame) :
    HandlerCall.onTurnComplete ∈ handleMessageCalls f ↔ f.turn_complete = true := by
  rcases f with ⟨m, tc, ir⟩
  cases m with
  | none => cases tc <;> cases ir <;> simp [handleMessageCalls]
  | some s =>
    cases tc <;> cases ir <;> by_cases hs : s = "" <;> simp [handleMessageCalls, hs]

/-- `handleMessage` fires `onInterrupted` on a frame exactly when the
frame carries `interrupted=true`. -/
theorem onInterrupted_mem_calls (f : Frame) :
    HandlerCall.onInterrupted ∈ handleMessageCalls f ↔ f.interrupted = true := by
  rcases f with ⟨m, tc, ir⟩
  cases m with
  | none => cases tc <;> cases ir <;> simp [handleMessageCalls]
  | some s =>
    cases tc <;> cases ir <;> by_cases hs : s = "" <;> simp [handleMessageCalls, hs]

/-- A well-formed turn contains exactly one terminal frame. -/
theorem wellFormedTurn_countP {fs : List Frame} (h : WellFormedTurn fs) :
    fs.countP (fun f => f.isTerminal) = 1 := by
  obtain ⟨pre, t, rfl, hpre, ht, -⟩ := h
  rw [List.countP_append]
  have h0 : pre.countP (fun f => f.isTerminal) = 0 :=
    List.countP_eq_zero.mpr (by intro f hf; simpa using hpre f hf)
  simp [h0, ht]

/-- C1: over the frames of one well-formed turn (spec-modelled wire
protocol, since the emitting server ships no source), no single frame
makes `handleMessage` invoke both the turn-complete and the interrupted
handler, and the turn contains exactly one terminal frame, preceded
only by non-terminal ones. -/
theorem turn_terminal_markers_exclusive (fs : List Frame) (h : WellFormedTurn fs) :
    (∀ f ∈ fs, ¬(HandlerCall.onTurnComplete ∈ handleMessageCalls f ∧
                 HandlerCall.onInterrupted ∈ handleMessageCalls f)) ∧
    fs.countP (fun f => f.isTerminal) = 1 := by
  obtain ⟨pre, t, rfl, hpre, ht, hexcl⟩ := h
  constructor
  · intro f hf
    rw [onTurnComplete_mem_calls, onInterrupted_mem_calls]
    rcases List.mem_append.mp hf with hf | hf
    · have := hpre f hf
      simp only [Frame.isTerminal, Bool.or_eq_false_iff] at this
      rintro ⟨h1, _⟩
      exact absurd h1 (by simp [this.1])
    · have : f = t := by simpa using hf
      subst this
      exact hexcl
  · exact wellFormedTurn_countP ⟨pre, t, rfl, hpre, ht, hexcl⟩

/-- A concrete well-formed turn — one fragment then a completion
frame — flowing through the exclusivity theorem. -/
theorem turn_terminal_markers_exclusive_witness :
    (∀ f ∈ [Frame.mk (some "hi") false false, Frame.mk none true false],
       ¬(HandlerCall.onTurnComplete ∈ handleMessageCalls f ∧
         HandlerCall.onInterrupted ∈ handleMessageCalls f)) ∧
    ([Frame.mk (some "hi") false false, Frame.mk none true false].countP
       (fun f => f.isTerminal)) = 1 :=
  turn_terminal_markers_exclusive _
    ⟨[Frame.mk (some "hi") false false], Frame.mk none true false,
     rfl, by decide, by decide, by decide⟩

/-- C2: whatever the outcome of the agent invocation — streamed
success, provider failure, timeout, or a mid-stream interrupt — the
spec-modelled turn emission delivers a frame stream that is a
well-formed turn with exactly one terminal frame. -/
theorem turn_always_terminates (o : AgentTurnOutcome) :
    WellFormedTurn (turnFrames o) ∧
    (turnFrames o).countP (fun f => f.isTerminal) = 1 := by
  have hwf : WellFormedTurn (turnFrames o) := by
    cases o with
    | success fragments finalText =>
      exact ⟨fragments.map (fun s => ⟨some s, false, false⟩), ⟨some finalText, true, false⟩,
        rfl, by intro f hf; obtain ⟨s, _, rfl⟩ := List.mem_map.mp hf; rfl,
        rfl, by simp⟩
    | failure message => exact ⟨[], ⟨some message, true, false⟩, rfl, by simp, rfl, by simp⟩
    | timeout message => exact ⟨[], ⟨some message, true, false⟩, rfl, by simp, rfl, by simp⟩
    | interruptedMid fragments =>
      exact ⟨fragments.map (fun s => ⟨some s, false, false⟩), ⟨none, false, true⟩,
        rfl, by intro f hf; obtain ⟨s, _, rfl⟩ := List.mem_map.mp hf; rfl,
        rfl, by simp⟩
  exact ⟨hwf, wellFormedTurn_countP hwf⟩

/-! ## C3: the message history -/

/-- The streaming update leaves every message whose id differs from the
current streaming id untouched. -/
theorem map_extend_of_not_mem (cid text : String) :
    ∀ l : List Message, cid ∉ l.map Message.id →
      (l.map fun m => if m.id = cid then { m with content := m.content ++ text } else m) = l
  | [], _ => rfl
  | m :: ms, h => by
    have hm : ¬ m.id = cid := fun e => h (by simp [e])
    have hms : cid ∉ ms.map Message.id := fun e => h (by simp [e])
    simp [hm, map_extend_of_not_mem cid text ms hms]

/-- C3 (counterexample): a streaming fragment arriving while a message
is current rewrites that previously appended message's content in
place — the history is not immutable-once-appended. -/
theorem history_mutation_counterexample :
    ((onMessageHandler 9
        { tp := { tripData := none, isLoading := false, error := none,
                  messages := [⟨"7", Role.assistant, "Hel", 7⟩] }
          currentMessageId := some "7", isConnected := true, isConnecting := false,
          connectionError := none, inputValue := "", isPlanningTrip := false,
          isProcessingMessage := false }
        "lo").tp.messages.map Message.content = ["Hello"]) ∧
    ([Message.mk "7" Role.assistant "Hel" 7].map Message.content = ["Hel"]) := by
  exact ⟨by decide, by decide⟩

/-- C3 (amended): the history is append-only up to monotone extension
of the current streaming message: `ADD_MESSAGE` appends, a fragment
with no current message appends a fresh assistant message, a fragment
for the current id keeps every id (and order, and every message with a
different id) intact and only extends the current message's content by
the fragment, and the terminal handlers never touch the history. -/
theorem history_append_only (parseJson : String → Option FE.TripData)
    (now : Nat) (st : ClientState) (text : String) :
    (∀ (s : TPState) (m : Message),
       (tripPlanningReducer s (.addMessage m)).messages = s.messages ++ [m]) ∧
    (st.currentMessageId = none →
       (onMessageHandler now st text).tp.messages =
         st.tp.messages ++ [⟨toString now, Role.assistant, text, now⟩]) ∧
    (∀ cid, st.currentMessageId = some cid →
       ((onMessageHandler now st text).tp.messages.map Message.id =
          st.tp.messages.map Message.id) ∧
       (∀ (i : Nat) (m : Message), st.tp.messages[i]? = some m →
          (m.id ≠ cid → (onMessageHandler now st text).tp.messages[i]? = some m) ∧
          (m.id = cid → (onMessageHandler now st text).tp.messages[i]? =
             some { m with content := m.content ++ text }))) ∧
    ((onTurnCompleteHandler parseJson st).tp.messages = st.tp.messages) ∧
    ((onInterruptedHandler st).tp.messages = st.tp.messages) := by
  refine ⟨fun s m => rfl, fun h => ?_, fun cid h => ?_, ?_, rfl⟩
  · simp [onMessageHandler, h, tripPlanningReducer]
  · constructor
    · simp only [onMessageHandler, h, tripPlanningReducer]
      rw [List.map_map]
      apply List.map_congr_left
      intro m _
      by_cases hm : m.id = cid <;> simp [hm]
    · intro i m hi
      constructor
      · intro hne
        simp only [onMessageHandler, h, tripPlanningReducer, List.getElem?_map, hi,
          Option.map_some']
        simp [hne]
      · intro he
        simp only [onMessageHandler, h, tripPlanningReducer, List.getElem?_map, hi,
          Option.map_some']
        simp [he]
  · simp only [onTurnCompleteHandler]
    split
    · split <;> simp [tripPlanningReducer]
    · rfl

/-- Concrete instances of the append-only characterisation: an append
with no current message, and an extension that keeps the other
message intact. -/
theorem history_append_only_witness :
    ((onMessageHandler 9
        { tp := { tripData := none, isLoading := false, error := none,
                  messages := [⟨"3", Role.user, "hi", 3⟩] }
          currentMessageId := none, isConnected := true, isConnecting := false,
          connectionError := none, inputValue := "", isPlanningTrip := false,
          isProcessingMessage := false }
        "ok").tp.messages =
      [⟨"3", Role.user, "hi", 3⟩] ++ [⟨toString 9, Role.assistant, "ok", 9⟩]) ∧
    ((onMessageHandler 9
        { tp := { tripData := none, isLoading := false, error := none,
                  messages := [⟨"3", Role.user, "hi", 3⟩, ⟨"7", Role.assistant, "He", 7⟩] }
          currentMessageId := some "7", isConnected := true, isConnecting := false,
          connectionError := none, inputValue := "", isPlanningTrip := false,
          isProcessingMessage := false }
        "y").tp.messages.map Message.id =
      [Message.mk "3" Role.user "hi" 3, Message.mk "7" Role.assistant "He" 7].map Message.id) :=
  ⟨(history_append_only (fun _ => none) 9 _ "ok").2.1 rfl,
   ((history_append_only (fun _ => none) 9 _ "y").2.2.1 "7" rfl).1⟩

/-! ## C7: no fragments extend an interrupted turn -/

/-- C7: the interrupted handler resets the current streaming message id
to `null`, so any fragment arriving afterwards starts a fresh assistant
message and every message of the interrupted turn survives unchanged —
its content is never extended. -/
theorem interrupted_never_extended (now : Nat) (st : ClientState) (text : String) :
    (onInterruptedHandler st).currentMessageId = none ∧
    (onMessageHandler now (onInterruptedHandler st) text).tp.messages =
      st.tp.messages ++ [⟨toString now, Role.assistant, text, now⟩] := by
  exact ⟨rfl, by simp [onInterruptedHandler, onMessageHandler, tripPlanningReducer]⟩

/-! ## C8: user message precedes the agent message -/

/-- The turn invariant for C8: the history is the pre-turn base, then
the user message, then only assistant messages; and any current
streaming id is none of the base/user ids. -/
theorem clientStep_turn_inv (parseJson : String → Option FE.TripData)
    (base : List Message) (u : Message) (q : Nat × Frame)
    (hfresh : toString q.1 ∉ (base ++ [u]).map Message.id) (s : ClientState)
    (hmsgs : ∃ rest, s.tp.messages = base ++ u :: rest ∧ ∀ m ∈ rest, m.role = Role.assistant)
    (hcid : ∀ cid, s.currentMessageId = some cid → cid ∉ (base ++ [u]).map Message.id) :
    (∃ rest, (clientStep parseJson s q).tp.messages = base ++ u :: rest ∧
       ∀ m ∈ rest, m.role = Role.assistant) ∧
    (∀ cid, (clientStep parseJson s q).currentMessageId = some cid →
       cid ∉ (base ++ [u]).map Message.id) := by
  obtain ⟨rest, hrest, hroles⟩ := hmsgs
  -- the fragment part
  have step1 : ∀ (n : Nat) (text : String), toString n ∉ (base ++ [u]).map Message.id →
      (∃ rest', (onMessageHandler n s text).tp.messages = base ++ u :: rest' ∧
         ∀ m ∈ rest', m.role = Role.assistant) ∧
      (∀ cid, (onMessageHandler n s text).currentMessageId = some cid →
         cid ∉ (base ++ [u]).map Message.id) := by
    intro n text hn
    cases hc : s.currentMessageId with
    | none =>
      refine ⟨⟨rest ++ [⟨toString n, Role.assistant, text, n⟩], ?_, ?_⟩, ?_⟩
      · simp [onMessageHandler, hc, tripPlanningReducer, hrest]
      · intro m hm
        rcases List.mem_append.mp hm with hm | hm
        · exact hroles m hm
        · simp at hm; simp [hm]
      · intro cid hcid'
        simp only [onMessageHandler, hc] at hcid'
        have : cid = toString n := by
          simpa using hcid'.symm
        exact this ▸ hn
    | some cid0 =>
      have hnot := hcid cid0 hc
      have hbase : cid0 ∉ (base ++ [u]).map Message.id := hnot
      refine ⟨⟨rest.map fun m =>
          if m.id = cid0 then { m with content := m.content ++ text } else m, ?_, ?_⟩, ?_⟩
      · simp only [onMessageHandler, hc, tripPlanningReducer, hrest]
        rw [show base ++ u :: rest = (base ++ [u]) ++ rest by simp, List.map_append,
          map_extend_of_not_mem cid0 text (base ++ [u]) hbase]
        simp
      · intro m hm
        obtain ⟨m0, hm0, rfl⟩ := List.mem_map.mp hm
        by_cases h0 : m0.id = cid0 <;> simp [h0, hroles m0 hm0]
      · intro cid hcid'
        simp only [onMessageHandler, hc] at hcid'
        exact (Option.some_injective _ hcid') ▸ hcid cid0 hc
  -- assemble the three dispatch stages
  have h1 : (∃ rest', (match q.2.message with
      | some s' => if s' = "" then s else onMessageHandler q.1 s s'
      | none => s).tp.messages = base ++ u :: rest' ∧
        ∀ m ∈ rest', m.role = Role.assistant) ∧
      (∀ cid, (match q.2.message with
      | some s' => if s' = "" then s else onMessageHandler q.1 s s'
      | none => s).currentMessageId = some cid → cid ∉ (base ++ [u]).map Message.id) := by
    cases hm : q.2.message with
    | none => exact ⟨⟨rest, hrest, hroles⟩, hcid⟩
    | some s' =>
      by_cases hs : s' = ""
      · simp only [hs, if_pos rfl]
        exact ⟨⟨rest, hrest, hroles⟩, hcid⟩
      · simp only [if_neg hs]
        exact step1 q.1 s' hfresh
  obtain ⟨⟨rest1, hrest1, hroles1⟩, hcid1⟩ := h1
  -- turn_complete: messages unchanged, current id cleared
  have h2 : ∀ s1 : ClientState,
      (∃ r, s1.tp.messages = base ++ u :: r ∧ ∀ m ∈ r, m.role = Role.assistant) →
      (∀ cid, s1.currentMessageId = some cid → cid ∉ (base ++ [u]).map Message.id) →
      (∃ r, (onTurnCompleteHandler parseJson s1).tp.messages = base ++ u :: r ∧
         ∀ m ∈ r, m.role = Role.assistant) ∧
      (∀ cid, (onTurnCompleteHandler parseJson s1).currentMessageId = some cid →
         cid ∉ (base ++ [u]).map Message.id) := by
    intro s1 ⟨r, hr, hrl⟩ _
    have hmsg : (onTurnCompleteHandler parseJson s1).tp.messages = s1.tp.messages := by
      simp only [onTurnCompleteHandler]
      split
      · split <;> simp [tripPlanningReducer]
      · rfl
    have hcur : (onTurnCompleteHandler parseJson s1).currentMessageId = none := by
      simp only [onTurnCompleteHandler]
      split
      · split <;> rfl
      · rfl
    exact ⟨⟨r, by rw [hmsg, hr], hrl⟩, fun cid h => by rw [hcur] at h; cases h⟩
  have h3 : ∀ s2 : ClientState,
      (∃ r, s2.tp.messages = base ++ u :: r ∧ ∀ m ∈ r, m.role = Role.assistant) →
      (∃ r, (onInterruptedHandler s2).tp.messages = base ++ u :: r ∧
         ∀ m ∈ r, m.role = Role.assistant) ∧
      (∀ cid, (onInterruptedHandler s2).currentMessageId = some cid →
         cid ∉ (base ++ [u]).map Message.id) := by
    intro s2 ⟨r, hr, hrl⟩
    exact ⟨⟨r, hr, hrl⟩, fun cid h => by cases h⟩
  simp only [clientStep]
  by_cases htc : q.2.turn_complete = true
  · rw [if_pos htc]
    by_cases hir : q.2.interrupted = true
    · rw [if_pos hir]
      exact h3 _ (h2 _ ⟨rest1, hrest1, hroles1⟩ hcid1).1
    · rw [if_neg hir]
      exact h2 _ ⟨rest1, hrest1, hroles1⟩ hcid1
  · rw [if_neg htc]
    by_cases hir : q.2.interrupted = true
    · rw [if_pos hir]
      exact h3 _ ⟨rest1, hrest1, hroles1⟩
    · rw [if_neg hir]
      exact ⟨⟨rest1, hrest1, hroles1⟩, hcid1⟩

/-- The turn invariant is preserved across any sequence of inbound
frames whose fresh message ids avoid the pre-turn history. -/
theorem foldFrames_turn_inv (parseJson : String → Option FE.TripData)
    (base : List Message) (u : Message) :
    ∀ (frames : List (Nat × Frame)) (s : ClientState),
      (∀ q ∈ frames, toString q.1 ∉ (base ++ [u]).map Message.id) →
      (∃ rest, s.tp.messages = base ++ u :: rest ∧ ∀ m ∈ rest, m.role = Role.assistant) →
      (∀ cid, s.currentMessageId = some cid → cid ∉ (base ++ [u]).map Message.id) →
      ∃ rest, (frames.foldl (clientStep parseJson) s).tp.messages = base ++ u :: rest ∧
        ∀ m ∈ rest, m.role = Role.assistant
  | [], s, _, hmsgs, _ => hmsgs
  | q :: qs, s, hfresh, hmsgs, hcid => by
    have hq := clientStep_turn_inv parseJson base u q
      (hfresh q (List.mem_cons_self _ _)) s hmsgs hcid
    exact foldFrames_turn_inv parseJson base u qs (clientStep parseJson s q)
      (fun r hr => hfresh r (List.mem_cons_of_mem _ hr)) hq.1 hq.2

/-- C8: a submitted turn appends the user message to the history before
anything else, and every message the turn's inbound frames add after it
is an assistant message — the user message sits strictly before the
agent's output in conversation order.  Hypotheses: nonempty trimmed
input, a live connection, no streaming message left over from an
earlier turn, and frame timestamps distinct from the existing ids. -/
theorem user_message_precedes_agent (parseJson : String → Option FE.TripData)
    (now : Nat) (st : ClientState) (frames : List (Nat × Frame))
    (h1 : ¬ jsTrim st.inputValue = "") (h2 : st.isConnected = true)
    (h3 : st.currentMessageId = none)
    (h4 : ∀ q ∈ frames, toString q.1 ∉
      (st.tp.messages ++ [Message.mk (toString now) Role.user st.inputValue now]).map
        Message.id) :
    ∃ rest, (runTurn parseJson now st frames).tp.messages =
        st.tp.messages ++ Message.mk (toString now) Role.user st.inputValue now :: rest ∧
      ∀ m ∈ rest, m.role = Role.assistant := by
  have hsub : (handleSubmit now st).tp.messages =
      st.tp.messages ++ [Message.mk (toString now) Role.user st.inputValue now] ∧
      (handleSubmit now st).currentMessageId = none := by
    by_cases hq : isTripPlanningQuery st.inputValue = true <;>
      simp [handleSubmit, h1, h2, hq, tripPlanningReducer, h3]
  have := foldFrames_turn_inv parseJson st.tp.messages
    (Message.mk (toString now) Role.user st.inputValue now) frames (handleSubmit now st) h4
    ⟨[], by simpa using hsub.1, by simp⟩
    (fun cid hc => by rw [hsub.2] at hc; cases hc)
  simpa [runTurn] using this

/-- A concrete turn — submit "hello", one fragment, then completion —
flowing through the ordering theorem. -/
theorem user_message_precedes_agent_witness :
    ∃ rest, (runTurn (fun _ => none) 1
        { tp := { tripData := none, isLoading := false, error := none, messages := [] }
          currentMessageId := none, isConnected := true, isConnecting := false,
          connectionError := none, inputValue := "hello", isPlanningTrip := false,
          isProcessingMessage := false }
        [(5, ⟨some "ok", false, false⟩), (6, ⟨none, true, false⟩)]).tp.messages =
      [] ++ Message.mk (toString 1) Role.user "hello" 1 :: rest ∧
      ∀ m ∈ rest, m.role = Role.assistant :=
  user_message_precedes_agent (fun _ => none) 1 _ _
    (by decide) rfl rfl (by decide)

/-! ## C4, C5: trip-data extraction -/

/-- When no assistant message carries a ```` ```json ```` block, the
JSON search of either extractor comes up empty. -/
theorem findJsonTripData_eq_none {α : Type} (parseJson : String → Option α) :
    ∀ l : List Message, (∀ m ∈ l, jsonBlockMatch m.content = none) →
      findJsonTripData parseJson l = none
  | [], _ => rfl
  | m :: ms, h => by
    have hm := h m (List.mem_cons_self _ _)
    simp [findJsonTripData, hm,
      findJsonTripData_eq_none parseJson ms fun x hx => h x (List.mem_cons_of_mem _ hx)]

/-- C4 (counterexample): on a message list whose single assistant
message matches no pattern at all — no JSON block, no destination, no
date range, no budget — the sample-data extractor variant still returns
trip data (destination `"Bangkok"`), not the empty result the claim
requires. -/
theorem extraction_empty_on_no_match_counterexample :
    destinationMatch "hello" = none ∧
    dateRangeMatch "hello" = none ∧
    budgetMatch "hello" = none ∧
    jsonBlockMatch "hello" = none ∧
    (extractTripDataFromResponseP9 (fun _ => none)
        [⟨"1", Role.assistant, "hello", 1⟩]).map P9.TripData.destination =
      some "Bangkok" := by
  refine ⟨by decide, by decide, by decide, by decide, ?_⟩
  rfl

/-- C4 (amended): both extractors are total and return `null` when the
message list has no assistant messages; the `ChatInterface.tsx` variant
moreover returns `null` whenever no JSON block and no destination
pattern matches, whereas the sample-data variant returns trip data for
every list that contains an assistant message. -/
theorem extraction_total (parseJsonF : String → Option FE.TripData)
    (parseJsonP : String → Option P9.TripData) (msgs : List Message) :
    (assistantMessages msgs = [] →
       extractTripDataFromResponseFE parseJsonF msgs = none ∧
       extractTripDataFromResponseP9 parseJsonP msgs = none) ∧
    ((∀ m ∈ assistantMessages msgs, jsonBlockMatch m.content = none) →
       destinationMatch (lastAssistantContent msgs) = none →
       extractTripDataFromResponseFE parseJsonF msgs = none) ∧
    (assistantMessages msgs ≠ [] →
       (extractTripDataFromResponseP9 parseJsonP msgs).isSome = true) := by
  refine ⟨fun h => ?_, fun hjson hdest => ?_, fun h => ?_⟩
  · constructor <;>
      simp [extractTripDataFromResponseFE, extractTripDataFromResponseP9, h]
  · cases h : assistantMessages msgs with
    | nil => simp [extractTripDataFromResponseFE, h]
    | cons m ms =>
      have hfind : findJsonTripData parseJsonF (assistantMessages msgs).reverse = none :=
        findJsonTripData_eq_none parseJsonF _ fun x hx =>
          hjson x (List.mem_reverse.mp hx)
      rw [h] at hfind
      simp only [List.reverse_cons] at hfind
      simp [extractTripDataFromResponseFE, h, hfind, hdest]
  · cases h' : assistantMessages msgs with
    | nil => exact absurd h' h
    | cons m ms =>
      simp only [extractTripDataFromResponseP9, h']
      cases findJsonTripData parseJsonP (m :: ms).reverse <;> simp

/-- Concrete instances: an empty history, and a one-assistant-message
history with nothing to match, through both extractor variants. -/
theorem extraction_total_witness :
    (extractTripDataFromResponseFE (fun _ => none) [] = none ∧
     extractTripDataFromResponseP9 (fun _ => none) [] = none) ∧
    extractTripDataFromResponseFE (fun _ => none)
      [⟨"1", Role.assistant, "hello", 1⟩] = none ∧
    (extractTripDataFromResponseP9 (fun _ => none)
      [⟨"1", Role.assistant, "hello", 1⟩]).isSome = true :=
  ⟨(extraction_total (fun _ => none) (fun _ => none) []).1 rfl,
   (extraction_total (fun _ => none) (fun _ => none) _).2.1
     (by decide) (by decide),
   (extraction_total (fun _ => none) (fun _ => none)
     [⟨"1", Role.assistant, "hello", 1⟩]).2.2 (by decide)⟩

/-- C5 (counterexample): on an assistant message that only mentions a
destination ("ไปเชียงใหม่" — no digits, so no date or budget could have
been matched), the extraction returns trip data whose start date, end
date, departure and budget are the fixed defaults of
`createSampleTripData`, values nowhere in the text — not discarded. -/
theorem defaults_substituted_counterexample :
    ((extractTripDataFromResponseFE (fun _ => none)
        [⟨"1", Role.assistant, "ไปเชียงใหม่", 1⟩]).map FE.TripData.startDate =
      some "2023-05-10") ∧
    ((extractTripDataFromResponseFE (fun _ => none)
        [⟨"1", Role.assistant, "ไปเชียงใหม่", 1⟩]).map FE.TripData.budget =
      some "฿30,000") ∧
    ((extractTripDataFromResponseFE (fun _ => none)
        [⟨"1", Role.assistant, "ไปเชียงใหม่", 1⟩]).map FE.TripData.departure =
      some "No departure specified") ∧
    "ไปเชียงใหม่".data.all (fun c => ¬ c.isDigit) = true := by
  exact ⟨by rfl, by rfl, by rfl, by decide⟩

/-- C5 (amended): the `ChatInterface.tsx` extractor takes from the text
only the destination, and even that only when it survives trimming:
with no JSON block, a matched destination pattern yields trip data
whose destination is the trimmed capture when that is nonempty and the
`"Bangkok"` default when the capture trims to whitespace, while
departure, dates and budget are always the fixed
`createSampleTripData` defaults; with no destination match either, it
returns `null`. -/
theorem matched_fields_only (parseJson : String → Option FE.TripData)
    (msgs : List Message)
    (hjson : ∀ m ∈ assistantMessages msgs, jsonBlockMatch m.content = none) :
    (∀ d : String, destinationMatch (lastAssistantContent msgs) = some d →
       extractTripDataFromResponseFE parseJson msgs =
         some { destination := if jsTrim d = "" then "Bangkok" else jsTrim d
                departure := "No departure specified"
                startDate := "2023-05-10", endDate := "2023-05-15"
                budget := "฿30,000" }) ∧
    (destinationMatch (lastAssistantContent msgs) = none →
       extractTripDataFromResponseFE parseJson msgs = none) := by
  have hfind : findJsonTripData parseJson (assistantMessages msgs).reverse = none :=
    findJsonTripData_eq_none parseJson _ fun x hx => hjson x (List.mem_reverse.mp hx)
  constructor
  · intro d hd
    cases h : assistantMessages msgs with
    | nil =>
      rw [show lastAssistantContent msgs = "" by simp [lastAssistantContent, h]] at hd
      rw [show destinationMatch "" = none from by decide] at hd
      cases hd
    | cons m ms =>
      rw [h] at hfind
      simp only [List.reverse_cons] at hfind
      simp [extractTripDataFromResponseFE, h, hfind, hd, createSampleTripData,
        orDefault]
  · intro hd
    cases h : assistantMessages msgs with
    | nil => simp [extractTripDataFromResponseFE, h]
    | cons m ms =>
      rw [h] at hfind
      simp only [List.reverse_cons] at hfind
      simp [extractTripDataFromResponseFE, h, hfind, hd]

/-- The amended extraction claim at three concrete inputs:
"ไปเชียงใหม่" (destination captured, everything else defaulted),
"ไป " (the `\s*` backtracks and the capture is the whitespace `" "`,
which trims away, so the destination too is the `"Bangkok"` default),
and "hello" (nothing matched, `null`). -/
theorem matched_fields_only_witness :
    extractTripDataFromResponseFE (fun _ => none)
        [⟨"1", Role.assistant, "ไปเชียงใหม่", 1⟩] =
      some { destination := if jsTrim "เชียงใหม่" = "" then "Bangkok" else jsTrim "เชียงใหม่"
             departure := "No departure specified"
             startDate := "2023-05-10", endDate := "2023-05-15"
             budget := "฿30,000" } ∧
    extractTripDataFromResponseFE (fun _ => none)
        [⟨"1", Role.assistant, "ไป ", 1⟩] =
      some { destination := if jsTrim " " = "" then "Bangkok" else jsTrim " "
             departure := "No departure specified"
             startDate := "2023-05-10", endDate := "2023-05-15"
             budget := "฿30,000" } ∧
    extractTripDataFromResponseFE (fun _ => none)
        [⟨"1", Role.assistant, "hello", 1⟩] = none :=
  ⟨(matched_fields_only (fun _ => none) [⟨"1", Role.assistant, "ไปเชียงใหม่", 1⟩]
      (by decide)).1 "เชียงใหม่" (by decide),
   (matched_fields_only (fun _ => none) [⟨"1", Role.assistant, "ไป ", 1⟩]
      (by decide)).1 " " (by decide),
   (matched_fields_only (fun _ => none) [⟨"1", Role.assistant, "hello", 1⟩]
      (by decide)).2 (by decide)⟩

end TripPlanning
